import Mathlib

/-
Verification of the Okta update-user-by-id action.

The development shallowly embeds the request-building, authentication
resolution and response-normalisation logic of the repository:
  - src/src/script.mjs      (invoke handler delegating to shared utils)
  - src/README.md           (bundled variant embedding getAuthorizationHeader,
                             getBaseUrl, updateUser and the invoke handler)
Network effects are modelled by returning a description of the HTTP request
that would be sent (`HttpRequest`); failures are `Except.error` values carrying
the thrown message.  The JavaScript runtime pieces the code relies on
(JSON.parse, string methods, base64, Object.assign) are modelled explicitly
below; JSON.parse results are passed in as an oracle argument since parsing
itself is external to the repository.
-/

namespace Okta

/-- Model of JavaScript String.prototype.startsWith over char lists. -/
def listStartsWith : List Char → List Char → Bool
  | _, [] => true
  | [], _ :: _ => false
  | a :: as, b :: bs => a == b && listStartsWith as bs

/-- JS `s.startsWith(p)`. -/
def jsStartsWith (s p : String) : Bool :=
  listStartsWith s.data p.data

/-- JS `s.endsWith(p)`. -/
def jsEndsWith (s p : String) : Bool :=
  listStartsWith s.data.reverse p.data.reverse

/-- JS `s.substring(n)` / `s.slice(n)` (drop the first `n` characters). -/
def jsDropChars (s : String) (n : Nat) : String :=
  String.mk (s.data.drop n)

/-- JS `s.slice(0, -1)` (drop the final character). -/
def jsDropLast (s : String) : String :=
  String.mk (s.data.dropLast)

/-- Whitespace characters recognised by JS `String.prototype.trim`
(restricted to the ASCII whitespace the action ever sees). -/
def isJsSpace (c : Char) : Bool :=
  c == ' ' || c == '\t' || c == '\n' || c == '\r'

/-- JS `s.trim()`. -/
def jsTrim (s : String) : String :=
  String.mk (((s.data.dropWhile isJsSpace).reverse.dropWhile isJsSpace).reverse)

/-- JS truthiness of an optional string value (`undefined` and `""` are falsy). -/
def truthy : Option String → Bool
  | none => false
  | some s => s != ""

/-- JS truthiness of `v && v.trim()` for an optional string `v`: the guard the
source uses for every optional profile field. -/
def truthyTrim : Option String → Bool
  | none => false
  | some s => s != "" && jsTrim s != ""

/-- Template-literal interpolation of a possibly-undefined string
(JS renders `undefined` as the string "undefined"). -/
def jsInterpolate : Option String → String
  | some s => s
  | none => "undefined"

/-- UTF-8 encoding of one character, as byte values. -/
def utf8Bytes (c : Char) : List Nat :=
  let n := c.toNat
  if n < 128 then [n]
  else if n < 2048 then [192 + n / 64, 128 + n % 64]
  else if n < 65536 then [224 + n / 4096, 128 + n / 64 % 64, 128 + n % 64]
  else [240 + n / 262144, 128 + n / 4096 % 64, 128 + n / 64 % 64, 128 + n % 64]

/-- The base64 alphabet. -/
def base64Alphabet : List Char :=
  "ABCDEFGHIJKLMNOPQRSTUVWXYZabcdefghijklmnopqrstuvwxyz0123456789+/".data

/-- Character for one 6-bit group. -/
def b64Char (n : Nat) : Char :=
  base64Alphabet.getD n '='

/-- Standard base64 of a byte list, processed in groups of three. -/
def base64Groups : List Nat → String
  | [] => ""
  | [a] =>
      String.mk [b64Char (a / 4), b64Char (a % 4 * 16)] ++ "=="
  | [a, b] =>
      String.mk [b64Char (a / 4), b64Char (a % 4 * 16 + b / 16), b64Char (b % 16 * 4)] ++ "="
  | a :: b :: c :: rest =>
      String.mk [b64Char (a / 4), b64Char (a % 4 * 16 + b / 16),
        b64Char (b % 16 * 4 + c / 64), b64Char (c % 64)] ++ base64Groups rest

/-- Model of `Buffer.from(s).toString('base64')`. -/
def base64Encode (s : String) : String :=
  base64Groups ((s.data.map utf8Bytes).flatten)

/-- JSON values, as produced by `JSON.parse`. -/
inductive JsonVal where
  | str (s : String)
  | num (n : Int)
  | bool (b : Bool)
  | null
  | arr (elems : List JsonVal)
  | obj (fields : List (String × JsonVal))

/-- A JavaScript object: an insertion-ordered key/value list. -/
abbrev JsonObj := List (String × JsonVal)

/-- JS property assignment `o[k] = v`: replace the value in place if the key
exists, otherwise append the new key. -/
def objInsert : JsonObj → String → JsonVal → JsonObj
  | [], k, v => [(k, v)]
  | (k1, v1) :: rest, k, v =>
      if k1 == k then (k, v) :: rest else (k1, v1) :: objInsert rest k v

/-- `Object.assign(target, source)` for object sources: copy each source
entry into the target, in order, overwriting colliding keys. -/
def objAssign (target : JsonObj) (source : JsonObj) : JsonObj :=
  source.foldl (fun acc kv => objInsert acc kv.1 kv.2) target

/-- JS property lookup `o[k]` on an object. -/
def lookupField : JsonObj → String → Option JsonVal
  | [], _ => none
  | (k1, v) :: rest, k => if k1 == k then some v else lookupField rest k

/-- JS property access `v.k` on an arbitrary value (non-objects have no
`errorSummary`-style own properties worth modelling here). -/
def getField : JsonVal → String → Option JsonVal
  | .obj fs, k => lookupField fs k
  | _, _ => none

/-- The own enumerable properties `Object.assign` copies from a parsed JSON
value: an object's fields; an array's or string's indexed elements;
nothing for primitives. -/
def ownEnumerableFields : JsonVal → JsonObj
  | .obj fs => fs
  | .arr vs => vs.enum.map (fun p => (toString p.1, p.2))
  | .str s => s.data.enum.map (fun p => (toString p.1, JsonVal.str (String.mk [p.2])))
  | _ => []

/-- JS truthiness of a JSON value. -/
def jsTruthyVal : JsonVal → Bool
  | .str s => s != ""
  | .num n => n != 0
  | .bool b => b
  | .null => false
  | .arr _ => true
  | .obj _ => true

mutual

/-- JS `String(v)` for a JSON value, as used by template literals: plain
objects render as "[object Object]", arrays via `Array.prototype.join`. -/
def jsValToString : JsonVal → String
  | .str s => s
  | .num n => toString n
  | .bool b => if b then "true" else "false"
  | .null => "null"
  | .arr elems => jsValListToString elems
  | .obj _ => "[object Object]"

/-- Comma-joined rendering of array elements per `Array.prototype.join`:
`null` elements render as the empty string (`String([null]) === ""`). -/
def jsValListToString : List JsonVal → String
  | [] => ""
  | [.null] => ""
  | [v] => jsValToString v
  | .null :: rest => "," ++ jsValListToString rest
  | v :: rest => jsValToString v ++ "," ++ jsValListToString rest

end

/-- Job parameters (src/src/script.mjs invoke JSDoc; README parameter table).
All fields are optional strings at the JS level; `none` models `undefined`. -/
structure Params where
  userId : Option String := none
  firstName : Option String := none
  lastName : Option String := none
  email : Option String := none
  login : Option String := none
  department : Option String := none
  employeeNumber : Option String := none
  additionalProfileAttributes : Option String := none
  address : Option String := none

/-- Secret-store entries consulted by the authentication resolver. -/
structure Secrets where
  BEARER_AUTH_TOKEN : Option String := none
  BASIC_USERNAME : Option String := none
  BASIC_PASSWORD : Option String := none
  OAUTH2_AUTHORIZATION_CODE_ACCESS_TOKEN : Option String := none
  OAUTH2_CLIENT_CREDENTIALS_CLIENT_SECRET : Option String := none

/-- Environment variables consulted by the action. -/
structure Environment where
  ADDRESS : Option String := none
  OAUTH2_CLIENT_CREDENTIALS_TOKEN_URL : Option String := none
  OAUTH2_CLIENT_CREDENTIALS_CLIENT_ID : Option String := none
  OAUTH2_CLIENT_CREDENTIALS_SCOPE : Option String := none
  OAUTH2_CLIENT_CREDENTIALS_AUDIENCE : Option String := none
  OAUTH2_CLIENT_CREDENTIALS_AUTH_STYLE : Option String := none

/-- Execution context: environment plus secrets. -/
structure Context where
  environment : Environment := {}
  secrets : Secrets := {}

/-- The profile-update HTTP request the action would send (method, target URL,
headers, and the `profile` object wrapped in the request body). -/
structure HttpRequest where
  url : String
  method : String
  authorization : String
  accept : String
  contentType : String
  profile : JsonObj

/-- `getAuthorizationHeader` (src/README.md lines 334-383): try the four
credential schemes in order — bearer token, basic username+password, OAuth2
authorization-code access token, OAuth2 client credentials — first truthy
match wins.  The client-credentials branch performs a token exchange over the
network; its outcome is passed in as the `tokenExchange` oracle.  The
`createAuthHeaders` utility that src/src/script.mjs imports from
`@sgnl-actions/utils` is not in the repository; per the spec (section 4.1) it
resolves the Authorization header by this same ordered strategy chain, so this
definition also serves as its model. -/
def getAuthorizationHeader (ctx : Context) (tokenExchange : Except String String) :
    Except String String :=
  if truthy ctx.secrets.BEARER_AUTH_TOKEN then
    let t := ctx.secrets.BEARER_AUTH_TOKEN.getD ""
    Except.ok (if jsStartsWith t "Bearer " then t else "Bearer " ++ t)
  else if truthy ctx.secrets.BASIC_PASSWORD && truthy ctx.secrets.BASIC_USERNAME then
    Except.ok ("Basic " ++ base64Encode
      (ctx.secrets.BASIC_USERNAME.getD "" ++ ":" ++ ctx.secrets.BASIC_PASSWORD.getD ""))
  else if truthy ctx.secrets.OAUTH2_AUTHORIZATION_CODE_ACCESS_TOKEN then
    let t := ctx.secrets.OAUTH2_AUTHORIZATION_CODE_ACCESS_TOKEN.getD ""
    Except.ok (if jsStartsWith t "Bearer " then t else "Bearer " ++ t)
  else if truthy ctx.secrets.OAUTH2_CLIENT_CREDENTIALS_CLIENT_SECRET then
    if !truthy ctx.environment.OAUTH2_CLIENT_CREDENTIALS_TOKEN_URL
        || !truthy ctx.environment.OAUTH2_CLIENT_CREDENTIALS_CLIENT_ID then
      Except.error "OAuth2 Client Credentials flow requires TOKEN_URL and CLIENT_ID in env"
    else
      tokenExchange.map (fun t => "Bearer " ++ t)
  else
    Except.error ("No authentication configured. Provide one of: BEARER_AUTH_TOKEN, BASIC_USERNAME/BASIC_PASSWORD, OAUTH2_AUTHORIZATION_CODE_ACCESS_TOKEN, or OAUTH2_CLIENT_CREDENTIALS_*")

/-- `getBaseUrl` (src/README.md lines 387-402): prefer `params.address`, else
`environment.ADDRESS`; reject when neither is truthy; strip one trailing
slash.  Also models the `getBaseURL` utility src/src/script.mjs imports
(spec section 4.2 describes the same resolution). -/
def getBaseUrl (params : Params) (env : Environment) : Except String String :=
  let address : Option String :=
    match params.address with
    | some a => if a != "" then some a else env.ADDRESS
    | none => env.ADDRESS
  match address with
  | some a =>
      if a != "" then
        Except.ok (if jsEndsWith a "/" then jsDropLast a else a)
      else
        Except.error "No URL specified. Provide address parameter or ADDRESS environment variable"
  | none =>
      Except.error "No URL specified. Provide address parameter or ADDRESS environment variable"

/-- One conditional profile assignment, e.g.
`if (firstName && firstName.trim()) profile.firstName = firstName.trim();`
(src/src/script.mjs lines 21-35). -/
def addField (profile : JsonObj) (key : String) (value : Option String) : JsonObj :=
  if truthyTrim value then
    objInsert profile key (JsonVal.str (jsTrim (value.getD "")))
  else profile

/-- The five standard-field assignments of `updateUser`
(src/src/script.mjs lines 18-35).  The documented `login` parameter is never
read by the source, so it does not appear here. -/
def buildStandardProfile (p : Params) : JsonObj :=
  addField (addField (addField (addField (addField [] "firstName" p.firstName)
    "lastName" p.lastName) "email" p.email) "department" p.department)
    "employeeNumber" p.employeeNumber

/-- Profile construction including the `additionalProfileAttributes` merge
(src/src/script.mjs lines 18-45).  `parsedAttrs` is the oracle outcome of
`JSON.parse` on the attribute string; it is consulted only when the string is
truthy and non-whitespace, and a parse failure is wrapped in the
invalid-JSON error. -/
def buildProfile (params : Params) (parsedAttrs : Except String JsonVal) :
    Except String JsonObj :=
  let profile := buildStandardProfile params
  if truthyTrim params.additionalProfileAttributes then
    match parsedAttrs with
    | .ok v => Except.ok (objAssign profile (ownEnumerableFields v))
    | .error m => Except.error ("Invalid additionalProfileAttributes JSON: " ++ m)
  else Except.ok profile

/-- `updateUser` (src/src/script.mjs lines 14-67): build the profile, reject
when it is empty, and otherwise describe the POST request that `fetch` would
send — target URL built by literal template interpolation of the userId. -/
def updateUser (params : Params) (baseUrl : String) (authHeader : String)
    (parsedAttrs : Except String JsonVal) : Except String HttpRequest :=
  match buildProfile params parsedAttrs with
  | .error e => Except.error e
  | .ok profile =>
      if profile.isEmpty then
        Except.error "At least one profile field must be provided to update"
      else
        Except.ok
          { url := baseUrl ++ "/api/v1/users/" ++ jsInterpolate params.userId
            method := "POST"
            authorization := authHeader
            accept := "application/json"
            contentType := "application/json"
            profile := profile }

/-- SSWS post-processing of the bundled variant (src/README.md lines 526-530):
whenever the resolved header starts with `Bearer `, replace that prefix with
`SSWS ` unless the remainder already carries it. -/
def sswsReadme (authHeader : String) : String :=
  if jsStartsWith authHeader "Bearer " then
    let token := jsDropChars authHeader 7
    if jsStartsWith token "SSWS " then token else "SSWS " ++ token
  else authHeader

/-- SSWS post-processing of src/src/script.mjs (lines 115-119): identical to
the bundled variant except that it additionally requires the
`BEARER_AUTH_TOKEN` secret to be present. -/
def sswsSrc (bearerSecret : Option String) (authHeader : String) : String :=
  if truthy bearerSecret && jsStartsWith authHeader "Bearer " then
    let token := jsDropChars authHeader 7
    if jsStartsWith token "SSWS " then token else "SSWS " ++ token
  else authHeader

/-- The request-building phase of the bundled variant's `invoke`
(src/README.md lines 510-537): validate the userId, resolve the base URL and
the Authorization header, apply the SSWS substitution unconditionally, and
build the update request.  Errors propagate as thrown exceptions do. -/
def invokeReadme (params : Params) (ctx : Context)
    (tokenExchange : Except String String) (parsedAttrs : Except String JsonVal) :
    Except String HttpRequest :=
  if !truthy params.userId then
    Except.error "Invalid or missing userId parameter"
  else
    match getBaseUrl params ctx.environment with
    | .error e => Except.error e
    | .ok baseUrl =>
        match getAuthorizationHeader ctx tokenExchange with
        | .error e => Except.error e
        | .ok h => updateUser params baseUrl (sswsReadme h) parsedAttrs

/-- The request-building phase of `invoke` in src/src/script.mjs
(lines 103-126): no userId validation, and the SSWS substitution is guarded
on the bearer secret being configured. -/
def invokeSrc (params : Params) (ctx : Context)
    (tokenExchange : Except String String) (parsedAttrs : Except String JsonVal) :
    Except String HttpRequest :=
  match getBaseUrl params ctx.environment with
  | .error e => Except.error e
  | .ok baseUrl =>
      match getAuthorizationHeader ctx tokenExchange with
      | .error e => Except.error e
      | .ok h => updateUser params baseUrl (sswsSrc ctx.secrets.BEARER_AUTH_TOKEN h) parsedAttrs

/-- The error value `invoke` throws on a non-2xx response. -/
structure ErrResult where
  message : String
  statusCode : Option Nat

/-- Error-response normalisation (src/src/script.mjs lines 145-163): default
to `Failed to update user: HTTP {status}`; when the body parses and its
`errorSummary` is truthy, use `Failed to update user: {errorSummary}`; always
attach the numeric status code.  `body` is the oracle outcome of
`response.json()`. -/
def normalizeErrorResponse (status : Nat) (body : Except Unit JsonVal) : ErrResult :=
  let base := "Failed to update user: HTTP " ++ toString status
  let message :=
    match body with
    | .ok b =>
        match getField b "errorSummary" with
        | some v => if jsTruthyVal v then "Failed to update user: " ++ jsValToString v else base
        | none => base
    | .error _ => base
  { message := message, statusCode := some status }

/-! Helper lemmas about the string and object models. -/

/-- String concatenation acts on the underlying character lists. -/
theorem strData_append (s t : String) : (s ++ t).data = s.data ++ t.data := rfl

/-- A list starts with any prefix it was built from. -/
theorem listStartsWith_append (p s : List Char) : listStartsWith (p ++ s) p = true := by
  induction p with
  | nil => cases s <;> rfl
  | cons a as ih => simp [listStartsWith, ih]

/-- `p ++ t` starts with `p`. -/
theorem jsStartsWith_append (p t : String) : jsStartsWith (p ++ t) p = true := by
  unfold jsStartsWith
  rw [strData_append]
  exact listStartsWith_append _ _

/-- Dropping the length of a prefix recovers the suffix. -/
theorem jsDropChars_length_append (p t : String) : jsDropChars (p ++ t) p.length = t := by
  unfold jsDropChars
  rw [strData_append]
  show String.mk ((p.data ++ t.data).drop p.data.length) = t
  rw [List.drop_left]

/-- Looking up the key just inserted yields the inserted value. -/
theorem lookupField_objInsert_self (m : JsonObj) (k : String) (v : JsonVal) :
    lookupField (objInsert m k v) k = some v := by
  induction m with
  | nil => simp [objInsert, lookupField]
  | cons kv rest ih =>
      obtain ⟨k1, v1⟩ := kv
      simp only [objInsert]
      by_cases h : (k1 == k) = true
      · simp [h, lookupField]
      · simp [h, lookupField, ih]

/-- Inserting a different key leaves a lookup unchanged. -/
theorem lookupField_objInsert_ne (m : JsonObj) (kIns k : String) (v : JsonVal)
    (h : ¬ kIns = k) : lookupField (objInsert m kIns v) k = lookupField m k := by
  induction m with
  | nil => simp [objInsert, lookupField, h]
  | cons kv rest ih =>
      obtain ⟨k1, v1⟩ := kv
      simp only [objInsert]
      by_cases h1 : (k1 == kIns) = true
      · have hk1 : k1 = kIns := by simpa using h1
        simp [lookupField, h, hk1]
      · by_cases hk : (k1 == k) = true
        · simp [h1, lookupField, hk]
        · simp [h1, lookupField, hk, ih]

/-- A key that does not occur looks up to `none`. -/
theorem lookupField_eq_none (m : JsonObj) (k : String)
    (h : k ∉ m.map Prod.fst) : lookupField m k = none := by
  induction m with
  | nil => rfl
  | cons kv rest ih =>
      obtain ⟨k1, v1⟩ := kv
      simp only [List.map, List.mem_cons] at h
      push_neg at h
      have h1 : (k1 == k) = false := beq_eq_false_iff_ne.mpr (fun hh => h.1 hh.symm)
      simp [lookupField, h1, ih h.2]

/-- Unfolding `objAssign` over a head entry. -/
theorem objAssign_cons (t : JsonObj) (k : String) (v : JsonVal) (rest : JsonObj) :
    objAssign t ((k, v) :: rest) = objAssign (objInsert t k v) rest := rfl

/-- Keys absent from the source are untouched by the merge. -/
theorem lookupField_objAssign_notMem (t src : JsonObj) (k : String)
    (h : lookupField src k = none) :
    lookupField (objAssign t src) k = lookupField t k := by
  induction src generalizing t with
  | nil => rfl
  | cons kv rest ih =>
      obtain ⟨k1, v1⟩ := kv
      simp only [lookupField] at h
      by_cases h1 : (k1 == k) = true
      · simp [h1] at h
      · rw [objAssign_cons, ih _ (by simpa [h1] using h)]
        exact lookupField_objInsert_ne t k1 k v1
          (beq_eq_false_iff_ne.mp (by simpa using h1))

/-- Keys present in a duplicate-free source win the merge. -/
theorem lookupField_objAssign_mem (t src : JsonObj) (k : String) (v : JsonVal)
    (hnd : (src.map Prod.fst).Nodup) (h : lookupField src k = some v) :
    lookupField (objAssign t src) k = some v := by
  induction src generalizing t with
  | nil => simp [lookupField] at h
  | cons kv rest ih =>
      obtain ⟨k1, v1⟩ := kv
      simp only [List.map, List.nodup_cons] at hnd
      simp only [lookupField] at h
      by_cases h1 : (k1 == k) = true
      · have hk : k1 = k := by simpa using h1
        have hv : v1 = v := by simpa [h1] using h
        subst hk
        subst hv
        rw [objAssign_cons,
          lookupField_objAssign_notMem _ _ _ (lookupField_eq_none _ _ hnd.1)]
        exact lookupField_objInsert_self t k1 v1
      · rw [objAssign_cons]
        exact ih _ hnd.2 (by simpa [h1] using h)

/-- An object with a successful lookup is nonempty. -/
theorem isEmpty_false_of_lookup (m : JsonObj) (k : String) (v : JsonVal)
    (h : lookupField m k = some v) : m.isEmpty = false := by
  cases m with
  | nil => simp [lookupField] at h
  | cons kv rest => rfl

/-- A conditional field assignment for a different key leaves a lookup
unchanged. -/
theorem lookupField_addField_ne (m : JsonObj) (key : String) (o : Option String)
    (k : String) (h : ¬ key = k) :
    lookupField (addField m key o) k = lookupField m k := by
  unfold addField
  split
  · exact lookupField_objInsert_ne m key k _ h
  · rfl

/-- A falsy optional string is `undefined` or empty. -/
theorem truthy_eq_false (o : Option String) (h : truthy o = false) :
    o = none ∨ o = some "" := by
  match o with
  | none => exact Or.inl rfl
  | some s =>
      have hs : s = "" := by simpa [truthy] using h
      exact Or.inr (by rw [hs])

/-! Claim theorems. -/

/-- C1 (amended): in the bundled variant, whenever the `userId` parameter is
absent or the empty string (JS-falsy), `invoke` fails with
"Invalid or missing userId parameter" before resolving the URL or the
credentials, hence before any network call.  (Whitespace-only userIds pass
the check — see the counterexample — and src/src/script.mjs has no userId
validation at all.) -/
theorem c1_amended_theorem (params : Params) (ctx : Context)
    (tex : Except String String) (pa : Except String JsonVal)
    (h : truthy params.userId = false) :
    invokeReadme params ctx tex pa = Except.error "Invalid or missing userId parameter" := by
  simp [invokeReadme, h]

/-- C1 witness: an invocation with `userId` present but empty is rejected
with the validation message. -/
theorem c1_witness :
    invokeReadme { userId := some "" } {} (Except.ok "t") (Except.ok JsonVal.null)
      = Except.error "Invalid or missing userId parameter" :=
  c1_amended_theorem { userId := some "" } {} (Except.ok "t") (Except.ok JsonVal.null)
    (by decide)

/-- C1 counterexample: a whitespace-only `userId` ("   ") is accepted by the
bundled variant's validation (`!userId || typeof userId !== 'string'`) and a
request is built, contradicting the claim that empty or whitespace-only
userIds fail with "Invalid or missing userId parameter"; moreover the
src/src/script.mjs variant builds a request even with `userId` absent. -/
theorem c1_counterexample :
    (invokeReadme
      { userId := some "   ", firstName := some "Jane",
        address := some "https://example.okta.com" }
      { secrets := { BEARER_AUTH_TOKEN := some "test-token" } }
      (Except.ok "unused") (Except.ok JsonVal.null)).isOk = true
  ∧ (invokeSrc { firstName := some "Jane", address := some "https://example.okta.com" }
      { secrets := { BEARER_AUTH_TOKEN := some "test-token" } }
      (Except.ok "unused") (Except.ok JsonVal.null)).isOk = true :=
  ⟨rfl, rfl⟩

/-- C2: the documented `login` parameter is never read by `updateUser` — a
request carrying only `userId` and a non-empty `login` is rejected with
"At least one profile field must be provided to update", and the standard
profile builder produces no field for it, contradicting the README parameter
table and the spec's field list. -/
theorem c2_login_ignored :
    updateUser { userId := some "u1", login := some "jane.smith@example.com" }
      "https://example.okta.com" "SSWS test-token" (Except.ok JsonVal.null)
      = Except.error "At least one profile field must be provided to update"
  ∧ buildStandardProfile { userId := some "u1", login := some "jane.smith@example.com" } = [] :=
  ⟨rfl, rfl⟩

/-- The bundled variant's SSWS substitution on a Bearer-prefixed header. -/
theorem sswsReadme_bearer (t : String) :
    sswsReadme ("Bearer " ++ t) = if jsStartsWith t "SSWS " then t else "SSWS " ++ t := by
  have hd : jsDropChars ("Bearer " ++ t) 7 = t := jsDropChars_length_append "Bearer " t
  simp [sswsReadme, jsStartsWith_append, hd]

/-- C3 (amended): the bundled variant substitutes `SSWS ` for a leading
`Bearer ` prefix idempotently and regardless of which strategy produced the
header; src/src/script.mjs performs the same substitution only when the
`BEARER_AUTH_TOKEN` secret is present, and otherwise leaves the header
unchanged. -/
theorem c3_amended_theorem :
    (∀ t : String, sswsReadme ("Bearer " ++ t)
        = if jsStartsWith t "SSWS " then t else "SSWS " ++ t)
  ∧ (∀ (b : Option String) (t : String), truthy b = true →
        sswsSrc b ("Bearer " ++ t) = if jsStartsWith t "SSWS " then t else "SSWS " ++ t)
  ∧ (∀ (b : Option String) (h : String), truthy b = false → sswsSrc b h = h)
  ∧ (∀ h : String, jsStartsWith h "Bearer " = false → sswsReadme h = h) := by
  refine ⟨fun t => sswsReadme_bearer t, fun b t hb => ?_, fun b h hb => ?_, fun h hh => ?_⟩
  · have hd : jsDropChars ("Bearer " ++ t) 7 = t := jsDropChars_length_append "Bearer " t
    simp [sswsSrc, hb, jsStartsWith_append, hd]
  · simp [sswsSrc, hb]
  · simp [sswsReadme, hh]

/-- C3 witness: with the bearer secret configured, src/src/script.mjs turns
`Bearer abc` into `SSWS abc`. -/
theorem c3_witness :
    sswsSrc (some "test-token") ("Bearer " ++ "abc") = "SSWS " ++ "abc" := by
  rw [c3_amended_theorem.2.1 (some "test-token") "abc" (by decide)]
  rfl

/-- C3 counterexample: under src/src/script.mjs, a Bearer header produced by
the OAuth2 authorization-code strategy is sent unchanged — the `SSWS `
substitution does not happen because the `BEARER_AUTH_TOKEN` secret is
absent, contradicting "regardless of which of the four authentication
strategies produced it". -/
theorem c3_counterexample :
    (invokeSrc
      { userId := some "u1", firstName := some "Jane",
        address := some "https://example.okta.com" }
      { secrets := { OAUTH2_AUTHORIZATION_CODE_ACCESS_TOKEN := some "oauth-token" } }
      (Except.ok "unused") (Except.ok JsonVal.null)).map (fun r => r.authorization)
      = Except.ok "Bearer oauth-token"
  ∧ ("Bearer oauth-token" : String) ≠ "SSWS oauth-token" :=
  ⟨rfl, by decide⟩

/-- C4: the resolver tries bearer token, then basic, then OAuth2
authorization-code, then OAuth2 client credentials, in that order; the first
scheme whose secrets are truthy determines the result irrespective of the
later ones; with none configured it fails with the
"No authentication configured" error naming all four schemes. -/
theorem c4_auth_priority :
    (∀ (ctx : Context) (tex : Except String String) (t : String),
        ctx.secrets.BEARER_AUTH_TOKEN = some t → t ≠ "" →
        getAuthorizationHeader ctx tex
          = Except.ok (if jsStartsWith t "Bearer " then t else "Bearer " ++ t))
  ∧ (∀ (ctx : Context) (tex : Except String String) (u p : String),
        truthy ctx.secrets.BEARER_AUTH_TOKEN = false →
        ctx.secrets.BASIC_USERNAME = some u → u ≠ "" →
        ctx.secrets.BASIC_PASSWORD = some p → p ≠ "" →
        getAuthorizationHeader ctx tex
          = Except.ok ("Basic " ++ base64Encode (u ++ ":" ++ p)))
  ∧ (∀ (ctx : Context) (tex : Except String String) (t : String),
        truthy ctx.secrets.BEARER_AUTH_TOKEN = false →
        (truthy ctx.secrets.BASIC_PASSWORD && truthy ctx.secrets.BASIC_USERNAME) = false →
        ctx.secrets.OAUTH2_AUTHORIZATION_CODE_ACCESS_TOKEN = some t → t ≠ "" →
        getAuthorizationHeader ctx tex
          = Except.ok (if jsStartsWith t "Bearer " then t else "Bearer " ++ t))
  ∧ (∀ (ctx : Context) (tex : Except String String),
        truthy ctx.secrets.BEARER_AUTH_TOKEN = false →
        (truthy ctx.secrets.BASIC_PASSWORD && truthy ctx.secrets.BASIC_USERNAME) = false →
        truthy ctx.secrets.OAUTH2_AUTHORIZATION_CODE_ACCESS_TOKEN = false →
        truthy ctx.secrets.OAUTH2_CLIENT_CREDENTIALS_CLIENT_SECRET = true →
        truthy ctx.environment.OAUTH2_CLIENT_CREDENTIALS_TOKEN_URL = true →
        truthy ctx.environment.OAUTH2_CLIENT_CREDENTIALS_CLIENT_ID = true →
        getAuthorizationHeader ctx tex = tex.map (fun tok => "Bearer " ++ tok))
  ∧ (∀ (ctx : Context) (tex : Except String String),
        truthy ctx.secrets.BEARER_AUTH_TOKEN = false →
        (truthy ctx.secrets.BASIC_PASSWORD && truthy ctx.secrets.BASIC_USERNAME) = false →
        truthy ctx.secrets.OAUTH2_AUTHORIZATION_CODE_ACCESS_TOKEN = false →
        truthy ctx.secrets.OAUTH2_CLIENT_CREDENTIALS_CLIENT_SECRET = false →
        getAuthorizationHeader ctx tex
          = Except.error "No authentication configured. Provide one of: BEARER_AUTH_TOKEN, BASIC_USERNAME/BASIC_PASSWORD, OAUTH2_AUTHORIZATION_CODE_ACCESS_TOKEN, or OAUTH2_CLIENT_CREDENTIALS_*") := by
  refine ⟨?_, ?_, ?_, ?_, ?_⟩
  · intro ctx tex t hB ht
    have h1 : truthy ctx.secrets.BEARER_AUTH_TOKEN = true := by
      rw [hB]; simp [truthy, ht]
    unfold getAuthorizationHeader
    rw [h1, hB]
    simp
  · intro ctx tex u p hBf hU hu hP hp
    have h2 : (truthy ctx.secrets.BASIC_PASSWORD && truthy ctx.secrets.BASIC_USERNAME) = true := by
      rw [hU, hP]; simp [truthy, hu, hp]
    unfold getAuthorizationHeader
    rw [hBf, h2, hU, hP]
    simp
  · intro ctx tex t hBf hBasicf hA ht
    have h3 : truthy ctx.secrets.OAUTH2_AUTHORIZATION_CODE_ACCESS_TOKEN = true := by
      rw [hA]; simp [truthy, ht]
    unfold getAuthorizationHeader
    rw [hBf, hBasicf, h3, hA]
    simp
  · intro ctx tex hBf hBasicf hAf hC hT hI
    unfold getAuthorizationHeader
    rw [hBf, hBasicf, hAf, hC, hT, hI]
    simp
  · intro ctx tex hBf hBasicf hAf hCf
    unfold getAuthorizationHeader
    rw [hBf, hBasicf, hAf, hCf]
    simp

/-- C4 witness: with bearer, basic-auth and client-credential secrets all
present, the bearer token wins. -/
theorem c4_witness :
    getAuthorizationHeader
      { secrets :=
          { BEARER_AUTH_TOKEN := some "test-token",
            BASIC_USERNAME := some "user", BASIC_PASSWORD := some "pass",
            OAUTH2_CLIENT_CREDENTIALS_CLIENT_SECRET := some "cs" } }
      (Except.ok "unused")
      = Except.ok "Bearer test-token" := by
  rw [c4_auth_priority.1
      { secrets :=
          { BEARER_AUTH_TOKEN := some "test-token",
            BASIC_USERNAME := some "user", BASIC_PASSWORD := some "pass",
            OAUTH2_CLIENT_CREDENTIALS_CLIENT_SECRET := some "cs" } }
      (Except.ok "unused") "test-token" rfl (by decide)]
  rfl

/-- C5: when every optional profile field is absent or empty/whitespace after
trimming and `additionalProfileAttributes` is absent or blank, the request
builder fails with "At least one profile field must be provided to update"
and no update request is produced; the same failure propagates through the
full invoke pipeline once userId validation, URL resolution and credential
resolution have succeeded. -/
theorem c5_empty_profile_error (params : Params)
    (h1 : truthyTrim params.firstName = false)
    (h2 : truthyTrim params.lastName = false)
    (h3 : truthyTrim params.email = false)
    (_h4 : truthyTrim params.login = false)
    (h5 : truthyTrim params.department = false)
    (h6 : truthyTrim params.employeeNumber = false)
    (h7 : truthyTrim params.additionalProfileAttributes = false) :
    (∀ (baseUrl authHeader : String) (pa : Except String JsonVal),
        updateUser params baseUrl authHeader pa
          = Except.error "At least one profile field must be provided to update")
  ∧ (∀ (ctx : Context) (tex : Except String String) (pa : Except String JsonVal)
        (b hh : String),
        truthy params.userId = true →
        getBaseUrl params ctx.environment = Except.ok b →
        getAuthorizationHeader ctx tex = Except.ok hh →
        invokeReadme params ctx tex pa
          = Except.error "At least one profile field must be provided to update") := by
  have hstd : buildStandardProfile params = [] := by
    simp [buildStandardProfile, addField, h1, h2, h3, h5, h6]
  have hupd : ∀ (baseUrl authHeader : String) (pa : Except String JsonVal),
      updateUser params baseUrl authHeader pa
        = Except.error "At least one profile field must be provided to update" := by
    intro baseUrl authHeader pa
    simp [updateUser, buildProfile, h7, hstd]
  refine ⟨hupd, ?_⟩
  intro ctx tex pa b hh huid hbase hauth
  simp [invokeReadme, huid, hbase, hauth, hupd]

/-- C5 witness: an invocation carrying only a userId (every profile field
absent) is rejected with the at-least-one-field message. -/
theorem c5_witness :
    updateUser { userId := some "u1", address := some "https://example.okta.com" }
      "https://example.okta.com" "SSWS t" (Except.ok JsonVal.null)
      = Except.error "At least one profile field must be provided to update" :=
  (c5_empty_profile_error
    { userId := some "u1", address := some "https://example.okta.com" }
    (by decide) (by decide) (by decide) (by decide) (by decide) (by decide)
    (by decide)).1
    "https://example.okta.com" "SSWS t" (Except.ok JsonVal.null)

/-- C6 (amended): when `additionalProfileAttributes` is truthy and non-blank
after trimming and `JSON.parse` rejects it with message `m`, the request
builder fails with "Invalid additionalProfileAttributes JSON: m" — the
failure wraps the parse-error message and no update request is produced.
(A non-empty but whitespace-only string is skipped, not parsed — see the
counterexample.) -/
theorem c6_amended_theorem (params : Params) (m : String)
    (hT : truthyTrim params.additionalProfileAttributes = true) :
    ∀ (baseUrl authHeader : String),
      updateUser params baseUrl authHeader (Except.error m)
        = Except.error ("Invalid additionalProfileAttributes JSON: " ++ m) := by
  intro baseUrl authHeader
  simp [updateUser, buildProfile, hT]

/-- C6 witness: `additionalProfileAttributes := "invalid-json"` with the
parser rejecting it produces the wrapped invalid-JSON error. -/
theorem c6_witness :
    updateUser
      { userId := some "u1", firstName := some "Jane",
        additionalProfileAttributes := some "invalid-json" }
      "https://example.okta.com" "SSWS t"
      (Except.error "Unexpected token i in JSON at position 0")
      = Except.error "Invalid additionalProfileAttributes JSON: Unexpected token i in JSON at position 0" := by
  rw [c6_amended_theorem
      { userId := some "u1", firstName := some "Jane",
        additionalProfileAttributes := some "invalid-json" }
      "Unexpected token i in JSON at position 0" (by decide)
      "https://example.okta.com" "SSWS t"]
  rfl

/-- C6 counterexample: a whitespace-only `additionalProfileAttributes` is a
non-empty string that `JSON.parse` would reject ("Unexpected end of JSON
input"), yet the builder succeeds because the trim check skips parsing —
contradicting the claim for every non-empty unparseable string. -/
theorem c6_counterexample :
    (updateUser
      { userId := some "u1", firstName := some "Jane",
        additionalProfileAttributes := some " " }
      "https://example.okta.com" "SSWS t"
      (Except.error "Unexpected end of JSON input")).isOk = true :=
  rfl

/-- C7 (amended): on a non-2xx response the thrown error always carries the
numeric status code in `statusCode`; the message is
"Failed to update user: {errorSummary}" when the body parses as JSON whose
`errorSummary` property is truthy, and "Failed to update user: HTTP {status}"
when body parsing fails, the property is absent, or it is falsy (such as the
empty string). -/
theorem c7_amended_theorem (status : Nat) (body : Except Unit JsonVal) :
    ((normalizeErrorResponse status body).statusCode = some status)
  ∧ (body = Except.error () →
        (normalizeErrorResponse status body).message
          = "Failed to update user: HTTP " ++ toString status)
  ∧ (∀ j, body = Except.ok j → getField j "errorSummary" = none →
        (normalizeErrorResponse status body).message
          = "Failed to update user: HTTP " ++ toString status)
  ∧ (∀ j v, body = Except.ok j → getField j "errorSummary" = some v →
        jsTruthyVal v = false →
        (normalizeErrorResponse status body).message
          = "Failed to update user: HTTP " ++ toString status)
  ∧ (∀ j v, body = Except.ok j → getField j "errorSummary" = some v →
        jsTruthyVal v = true →
        (normalizeErrorResponse status body).message
          = "Failed to update user: " ++ jsValToString v) := by
  refine ⟨rfl, ?_, ?_, ?_, ?_⟩
  · intro hb; subst hb; rfl
  · intro j hb hf; subst hb; simp [normalizeErrorResponse, hf]
  · intro j v hb hf hfalse; subst hb; simp [normalizeErrorResponse, hf, hfalse]
  · intro j v hb hf htrue; subst hb; simp [normalizeErrorResponse, hf, htrue]

/-- C7 witness: a 404 body with a truthy `errorSummary` yields the summary
message and status code 404. -/
theorem c7_witness :
    (normalizeErrorResponse 404
      (Except.ok (JsonVal.obj [("errorSummary", JsonVal.str "Not found: Resource not found")]))).message
      = "Failed to update user: " ++ "Not found: Resource not found" :=
  (c7_amended_theorem 404
      (Except.ok (JsonVal.obj [("errorSummary", JsonVal.str "Not found: Resource not found")]))).2.2.2.2
    (JsonVal.obj [("errorSummary", JsonVal.str "Not found: Resource not found")])
    (JsonVal.str "Not found: Resource not found") rfl rfl rfl

/-- C7 counterexample: a body that parses as JSON and does contain an
`errorSummary` field holding the empty string yields the HTTP-status message,
not "Failed to update user: " — so "containing an errorSummary field" alone
does not determine the summary-based message. -/
theorem c7_counterexample :
    (normalizeErrorResponse 404
      (Except.ok (JsonVal.obj [("errorSummary", JsonVal.str "")]))).message
      = "Failed to update user: HTTP 404"
  ∧ (normalizeErrorResponse 404
      (Except.ok (JsonVal.obj [("errorSummary", JsonVal.str "")]))).message
      ≠ "Failed to update user: " :=
  ⟨rfl, by decide⟩

/-- C8: base-URL resolution prefers a truthy `params.address`, falls back to
`environment.ADDRESS`, strips one trailing slash, and fails with the
"No URL specified" error when neither is set; the request target is the
resolved base concatenated with `/api/v1/users/` and the userId appended
literally, with no encoding. -/
theorem c8_url_resolution :
    (∀ (params : Params) (env : Environment) (a : String),
        params.address = some a → a ≠ "" →
        getBaseUrl params env
          = Except.ok (if jsEndsWith a "/" then jsDropLast a else a))
  ∧ (∀ (params : Params) (env : Environment) (a : String),
        truthy params.address = false → env.ADDRESS = some a → a ≠ "" →
        getBaseUrl params env
          = Except.ok (if jsEndsWith a "/" then jsDropLast a else a))
  ∧ (∀ (params : Params) (env : Environment),
        truthy params.address = false → truthy env.ADDRESS = false →
        getBaseUrl params env
          = Except.error "No URL specified. Provide address parameter or ADDRESS environment variable")
  ∧ (∀ (params : Params) (baseUrl authHeader : String) (pa : Except String JsonVal)
        (u : String) (req : HttpRequest),
        params.userId = some u →
        updateUser params baseUrl authHeader pa = Except.ok req →
        req.url = baseUrl ++ "/api/v1/users/" ++ u) := by
  refine ⟨?_, ?_, ?_, ?_⟩
  · intro params env a ha hne
    have hb : (a != "") = true := by simp [hne]
    simp [getBaseUrl, ha, hb]
  · intro params env a hpf hA hne
    have hb : (a != "") = true := by simp [hne]
    rcases truthy_eq_false _ hpf with hp | hp <;> simp [getBaseUrl, hp, hA, hb]
  · intro params env hpf hAf
    rcases truthy_eq_false _ hpf with hp | hp <;>
      rcases truthy_eq_false _ hAf with hA | hA <;>
        simp [getBaseUrl, hp, hA]
  · intro params baseUrl authHeader pa u req hu hreq
    unfold updateUser at hreq
    cases hbp : buildProfile params pa with
    | error e => rw [hbp] at hreq; exact absurd hreq (by simp)
    | ok profile =>
        rw [hbp] at hreq
        by_cases he : profile.isEmpty = true
        · simp [he] at hreq
        · simp [he] at hreq
          subst hreq
          simp [hu, jsInterpolate]

/-- C8 witness: a trailing slash on `params.address` is stripped and the
userId appears literally in the target URL. -/
theorem c8_witness :
    getBaseUrl { address := some "https://example.okta.com/" } {}
      = Except.ok "https://example.okta.com"
  ∧ ({ url := "https://example.okta.com" ++ "/api/v1/users/" ++ "u1",
       method := "POST", authorization := "SSWS t", accept := "application/json",
       contentType := "application/json",
       profile := [("firstName", JsonVal.str "Jane")] } : HttpRequest).url
      = "https://example.okta.com" ++ "/api/v1/users/" ++ "u1" := by
  constructor
  · rw [c8_url_resolution.1 { address := some "https://example.okta.com/" } {}
      "https://example.okta.com/" rfl (by decide)]
    rfl
  · exact c8_url_resolution.2.2.2
      { userId := some "u1", firstName := some "Jane" }
      "https://example.okta.com" "SSWS t" (Except.ok JsonVal.null) "u1"
      { url := "https://example.okta.com" ++ "/api/v1/users/" ++ "u1",
        method := "POST", authorization := "SSWS t", accept := "application/json",
        contentType := "application/json",
        profile := [("firstName", JsonVal.str "Jane")] }
      rfl (by rfl)

/-- C9: when `additionalProfileAttributes` parses as a JSON object (with
JSON's duplicate-free keys), the merged profile sent in the request carries
the attribute value for every key of that object — overriding a standard
field on collision — while keys the object does not mention look up in the
merged profile exactly as in the standard profile. -/
theorem c9_merge_override (params : Params) (attrs : JsonObj)
    (hT : truthyTrim params.additionalProfileAttributes = true)
    (hnd : (attrs.map Prod.fst).Nodup) :
    (∀ (k : String) (v : JsonVal), lookupField attrs k = some v →
        ∀ (baseUrl authHeader : String) (req : HttpRequest),
          updateUser params baseUrl authHeader (Except.ok (JsonVal.obj attrs))
            = Except.ok req →
          lookupField req.profile k = some v)
  ∧ (∀ k : String, lookupField attrs k = none →
        lookupField (objAssign (buildStandardProfile params) attrs) k
          = lookupField (buildStandardProfile params) k) := by
  constructor
  · intro k v hk baseUrl authHeader req hreq
    have hbp : buildProfile params (Except.ok (JsonVal.obj attrs))
        = Except.ok (objAssign (buildStandardProfile params) attrs) := by
      simp [buildProfile, hT, ownEnumerableFields]
    unfold updateUser at hreq
    rw [hbp] at hreq
    by_cases he : (objAssign (buildStandardProfile params) attrs).isEmpty = true
    · simp [he] at hreq
    · simp [he] at hreq
      subst hreq
      exact lookupField_objAssign_mem _ _ _ _ hnd hk
  · intro k hk
    exact lookupField_objAssign_notMem _ _ _ hk

/-- C9 witness: an attributes object overriding `firstName` wins the merge in
the request actually built. -/
theorem c9_witness :
    lookupField ([("firstName", JsonVal.str "Override")] : JsonObj) "firstName"
      = some (JsonVal.str "Override") :=
  (c9_merge_override
      { userId := some "u1", firstName := some "John",
        additionalProfileAttributes := some "js" }
      [("firstName", JsonVal.str "Override")] (by decide) (by decide)).1
    "firstName" (JsonVal.str "Override") rfl "https://example.okta.com" "SSWS t"
    { url := "https://example.okta.com" ++ "/api/v1/users/" ++ "u1",
      method := "POST", authorization := "SSWS t", accept := "application/json",
      contentType := "application/json",
      profile := [("firstName", JsonVal.str "Override")] }
    (by rfl)

/-- C10: values merged from `additionalProfileAttributes` are not normalised:
an attributes object whose single entry maps a key to the empty string is
placed verbatim in the profile and satisfies the at-least-one-field check, so
the request is built; whereas the same empty string supplied as the standard
`firstName` field is omitted from the standard profile. -/
theorem c10_verbatim_merge (params : Params) (k : String)
    (hT : truthyTrim params.additionalProfileAttributes = true) :
    (∀ (baseUrl authHeader : String), ∃ req : HttpRequest,
        updateUser params baseUrl authHeader
          (Except.ok (JsonVal.obj [(k, JsonVal.str "")])) = Except.ok req
        ∧ lookupField req.profile k = some (JsonVal.str ""))
  ∧ (params.firstName = some "" →
        lookupField (buildStandardProfile params) "firstName" = none) := by
  constructor
  · intro baseUrl authHeader
    have hlook : lookupField (objAssign (buildStandardProfile params)
        [(k, JsonVal.str "")]) k = some (JsonVal.str "") := by
      show lookupField (objInsert (buildStandardProfile params) k (JsonVal.str "")) k
        = some (JsonVal.str "")
      exact lookupField_objInsert_self _ _ _
    have hne : (objAssign (buildStandardProfile params) [(k, JsonVal.str "")]).isEmpty
        = false := isEmpty_false_of_lookup _ _ _ hlook
    refine ⟨{ url := baseUrl ++ "/api/v1/users/" ++ jsInterpolate params.userId,
              method := "POST", authorization := authHeader,
              accept := "application/json", contentType := "application/json",
              profile := objAssign (buildStandardProfile params) [(k, JsonVal.str "")] },
      ?_, hlook⟩
    simp [updateUser, buildProfile, hT, ownEnumerableFields, hne]
  · intro hf
    have h0 : addField [] "firstName" params.firstName = [] := by
      rw [hf]; rfl
    unfold buildStandardProfile
    rw [lookupField_addField_ne _ "employeeNumber" _ _ (by decide)]
    rw [lookupField_addField_ne _ "department" _ _ (by decide)]
    rw [lookupField_addField_ne _ "email" _ _ (by decide)]
    rw [lookupField_addField_ne _ "lastName" _ _ (by decide)]
    rw [h0]
    rfl

/-- C10 witness: with no usable standard fields and an attributes object
mapping `customField` to the empty string, a request is built carrying that
empty value verbatim. -/
theorem c10_witness :
    ∃ req : HttpRequest,
      updateUser
        { userId := some "u1", firstName := some "",
          additionalProfileAttributes := some "js" }
        "https://example.okta.com" "SSWS t"
        (Except.ok (JsonVal.obj [("customField", JsonVal.str "")])) = Except.ok req
      ∧ lookupField req.profile "customField" = some (JsonVal.str "") :=
  (c10_verbatim_merge
      { userId := some "u1", firstName := some "",
        additionalProfileAttributes := some "js" }
      "customField" (by decide)).1 "https://example.okta.com" "SSWS t"

end Okta
